import Mathlib

/-!
Shallow embedding of the my-backend Express application (src/backend.js).
Request body fields are JavaScript values (possibly absent); handlers mirror
the source line by line: truthiness checks, store lookups, bcrypt hashing and
comparison, JWT issuance, and the per-handler try/catch mapping to HTTP
status plus JSON body.  The MongoDB collections are modelled as in-memory
lists inside a DB state record; external collaborators (bcryptjs, jsonwebtoken,
the Firebase identity provider, the nodemailer relay) are modelled at their
interfaces, with their nondeterministic inputs (salt, current time, provider
results) passed as explicit parameters.
-/

namespace Backend

/-- A JavaScript value as it arrives in a parsed JSON request body: absent
(undefined), a string, or a number (modelled as an integer). -/
inductive JsValue where
  | undef : JsValue
  | str : String → JsValue
  | num : Int → JsValue
  deriving DecidableEq, Repr

/-- JavaScript truthiness as used by the guards of the form
if (!field) in the handlers: undefined, the empty string and 0 are falsy. -/
def truthy : JsValue → Bool
  | .undef => false
  | .str s => !(s == "")
  | .num n => !(n == 0)

/-- String coercion of a request value, as mongoose casts values stored into
a String schema field. -/
def JsValue.toStr : JsValue → String
  | .undef => "undefined"
  | .str s => s
  | .num n => toString n

/-- Numeric coercion of a request value, modelling the mongoose cast into
Number and Date schema fields (dates are represented by their timestamp).
The cast is modelled as total; no claim depends on the stored value of a
successfully added record beyond the fields checked here. -/
def JsValue.toIntVal : JsValue → Int
  | .undef => 0
  | .str s => (s.toInt?).getD 0
  | .num n => n

/-- A stored User document: src/backend.js lines 41-47.  The password field
holds the bcrypt hash.  The MongoDB object id is modelled as a Nat. -/
structure User where
  id : Nat
  firstName : String
  lastName : String
  email : String
  password : String
  deriving DecidableEq, Repr

/-- A stored Trip document: src/backend.js lines 49-54.  The date is the
timestamp of the Date field. -/
structure Trip where
  id : Nat
  name : String
  date : Int
  budget : Int
  deriving DecidableEq, Repr

/-- A stored Notification document: src/backend.js lines 56-61. -/
structure Notification where
  id : Nat
  message : String
  type : String
  createdAt : Int
  deriving DecidableEq, Repr

/-- The database state: the three MongoDB collections plus a counter
supplying fresh object ids. -/
structure DB where
  users : List User
  trips : List Trip
  notifications : List Notification
  nextId : Nat
  deriving DecidableEq, Repr

/-- A decoded JSON web token as produced by jwt.sign at line 92 of
src/backend.js: payload fields id and email, expiry option expiresIn "1h"
(3600 seconds), and the signing secret (process.env.JWT_SECRET). -/
structure Token where
  id : Nat
  email : String
  expiresIn : Nat
  secret : String
  deriving DecidableEq, Repr

/-- jwt.sign({ id, email }, secret, { expiresIn: "1h" }). -/
def jwtSign (id : Nat) (email : String) (secret : String) : Token :=
  ⟨id, email, 3600, secret⟩

/-- The JSON response bodies the handlers produce. -/
inductive Body where
  | err : String → Body
  | errDet : (error : String) → (details : String) → Body
  | msg : String → Body
  | msgToken : String → Token → Body
  | msgLink : (message : String) → (link : String) → Body
  | msgTrip : String → Trip → Body
  | msgNotification : String → Notification → Body
  | tripList : List Trip → Body
  | notificationList : List Notification → Body
  deriving DecidableEq, Repr

/-- An HTTP response: status code and JSON body. -/
structure Resp where
  status : Nat
  body : Body
  deriving DecidableEq, Repr

/-- Result of a handler that may write to the database. -/
structure HandlerResult where
  resp : Resp
  db : DB
  deriving DecidableEq, Repr

/-- Hexadecimal digit character. -/
def hexChar (n : Nat) : Char :=
  if n < 10 then Char.ofNat (48 + n) else Char.ofNat (87 + n)

/-- Six hex digits per character of the input: the digest part of the
modelled bcrypt hash.  Injective on valid character codes and always at
least as long as the input. -/
def digestChars : List Char → List Char
  | [] => []
  | c :: cs =>
    hexChar (c.toNat / 1048576 % 16) :: hexChar (c.toNat / 65536 % 16) ::
    hexChar (c.toNat / 4096 % 16) :: hexChar (c.toNat / 256 % 16) ::
    hexChar (c.toNat / 16 % 16) :: hexChar (c.toNat % 16) :: digestChars cs

/-- Model of bcrypt.hash from the external bcryptjs collaborator, per the
spec glossary (salted one-way hash, cost-tunable): the output is the format
tag, the cost factor, the 22-character salt, then a digest of the plaintext.
The salt, produced by the random salt generator of bcryptjs, is an explicit
parameter. -/
def bcryptHash (salt : String) (cost : Nat) (pw : String) : String :=
  "$2b$" ++ toString cost ++ "$" ++ salt ++ String.mk (digestChars pw.data)

/-- Model of bcrypt.compare from bcryptjs: re-hash the candidate plaintext
with the salt embedded in the stored hash (the 22 characters following the
7-character tag "$2b$10$") and compare. -/
def bcryptCompare (pw : String) (hash : String) : Bool :=
  hash == bcryptHash (String.mk ((hash.data.drop 7).take 22)) 10 pw

/-- bcrypt.compare as called on a raw request value: bcryptjs rejects
non-string arguments with an Illegal arguments error, which the handler
catch block turns into a 500 response. -/
def bcryptCompareJs (pw : JsValue) (hash : String) : Except String Bool :=
  match pw with
  | .undef => .error "Illegal arguments: undefined, string"
  | .num _ => .error "Illegal arguments: number, string"
  | .str s => .ok (bcryptCompare s hash)

/-- bcrypt.hash as called on a raw request value, same Illegal arguments
behaviour for non-strings. -/
def bcryptHashJs (salt : String) (pw : JsValue) : Except String String :=
  match pw with
  | .undef => .error "Illegal arguments: undefined, number"
  | .num _ => .error "Illegal arguments: number, number"
  | .str s => .ok (bcryptHash salt 10 s)

/-- User.findOne({ email }) query matching: the stored string email field
matches the cast of the query value; an undefined query value matches no
stored document. -/
def emailMatches (q : JsValue) (u : User) : Bool :=
  match q with
  | .undef => false
  | .str s => u.email == s
  | .num n => u.email == toString n

/-- POST /signup, src/backend.js lines 64-81: presence check on the four
fields, duplicate-email check, bcrypt hash with cost factor 10, save,
201 on success; the catch block yields 500 with details. -/
def signup (salt : String) (db : DB) (firstName lastName email password : JsValue) :
    HandlerResult :=
  if !truthy firstName || !truthy lastName || !truthy email || !truthy password then
    ⟨⟨400, .err "All fields are required"⟩, db⟩
  else if (db.users.find? (fun u => emailMatches email u)).isSome then
    ⟨⟨400, .err "Email already registered"⟩, db⟩
  else
    match bcryptHashJs salt password with
    | .error e => ⟨⟨500, .errDet "Error adding user" e⟩, db⟩
    | .ok hashed =>
      ⟨⟨201, .msg "User registered successfully!"⟩,
       { db with
          users := db.users ++
            [⟨db.nextId, firstName.toStr, lastName.toStr, email.toStr, hashed⟩],
          nextId := db.nextId + 1 }⟩

/-- POST /login, src/backend.js lines 83-97: no presence validation;
User.findOne({ email }), then bcrypt.compare, then jwt.sign; the catch
block turns a comparison error into 500 "Server error" with details. -/
def login (db : DB) (secret : String) (email password : JsValue) : Resp :=
  match db.users.find? (fun u => emailMatches email u) with
  | none => ⟨400, .err "User not found"⟩
  | some user =>
    match bcryptCompareJs password user.password with
    | .error e => ⟨500, .errDet "Server error" e⟩
    | .ok false => ⟨400, .err "Invalid credentials"⟩
    | .ok true => ⟨200, .msgToken "Login successful!" (jwtSign user.id user.email secret)⟩

/-- POST /reset-password, src/backend.js lines 109-123: the identity
provider link generation and the mail relay are the two external calls,
passed as parameters; any failure of either reaches the single catch block
and yields the one 500 response; on success the 200 body carries the
confirmation message and the generated link itself. -/
def resetPassword (generateLink : String → Except Unit String)
    (sendMail : String → String → Except Unit Unit) (email : JsValue) : Resp :=
  match generateLink email.toStr with
  | .error _ => ⟨500, .err "Failed to send reset email"⟩
  | .ok link =>
    match sendMail email.toStr link with
    | .error _ => ⟨500, .err "Failed to send reset email"⟩
    | .ok _ => ⟨200, .msgLink "Password reset email sent!" link⟩

/-- POST /trip/add, src/backend.js lines 126-136. -/
def addTrip (db : DB) (name date budget : JsValue) : HandlerResult :=
  if !truthy name || !truthy date || !truthy budget then
    ⟨⟨400, .err "All fields are required"⟩, db⟩
  else
    let newTrip : Trip := ⟨db.nextId, name.toStr, date.toIntVal, budget.toIntVal⟩
    ⟨⟨201, .msgTrip "Trip added successfully!" newTrip⟩,
     { db with trips := db.trips ++ [newTrip], nextId := db.nextId + 1 }⟩

/-- Ascending-by-date order on trips, the sort key of Trip.find().sort({ date: 1 }). -/
def tripDateLe (a b : Trip) : Prop := a.date ≤ b.date

instance : DecidableRel tripDateLe := fun a b => Int.decLe a.date b.date

instance : IsTotal Trip tripDateLe := ⟨fun a b => Int.le_total a.date b.date⟩

instance : IsTrans Trip tripDateLe := ⟨fun _ _ _ => Int.le_trans⟩

/-- The record list served by GET /trip: all trips sorted ascending by date
(src/backend.js line 140). -/
def listTrips (db : DB) : List Trip :=
  db.trips.insertionSort tripDateLe

/-- GET /trip, src/backend.js lines 138-145. -/
def getTrips (db : DB) : Resp :=
  ⟨200, .tripList (listTrips db)⟩

/-- DELETE /trip/delete/:id, src/backend.js lines 147-154:
Trip.findByIdAndDelete removes the document with the given id if one
exists; the handler responds 200 either way. -/
def deleteTrip (db : DB) (id : Nat) : HandlerResult :=
  ⟨⟨200, .msg "Trip deleted successfully!"⟩,
   { db with trips := db.trips.eraseP (fun t => t.id == id) }⟩

/-- POST /notification/add, src/backend.js lines 157-168: the createdAt
field defaults to Date.now, passed here as the now parameter. -/
def addNotification (db : DB) (now : Int) (message type : JsValue) : HandlerResult :=
  if !truthy message || !truthy type then
    ⟨⟨400, .err "Message and type are required"⟩, db⟩
  else
    let n : Notification := ⟨db.nextId, message.toStr, type.toStr, now⟩
    ⟨⟨201, .msgNotification "Notification added successfully!" n⟩,
     { db with notifications := db.notifications ++ [n], nextId := db.nextId + 1 }⟩

/-- Descending-by-creation-time order on notifications, the sort key of
Notification.find().sort({ createdAt: -1 }). -/
def notifTimeGe (a b : Notification) : Prop := b.createdAt ≤ a.createdAt

instance : DecidableRel notifTimeGe := fun a b => Int.decLe b.createdAt a.createdAt

instance : IsTotal Notification notifTimeGe := ⟨fun a b => Int.le_total b.createdAt a.createdAt⟩

instance : IsTrans Notification notifTimeGe := ⟨fun _ _ _ h h2 => Int.le_trans h2 h⟩

/-- The record list served by GET /notification: all notifications sorted
descending by creation time (src/backend.js line 172). -/
def listNotifications (db : DB) : List Notification :=
  db.notifications.insertionSort notifTimeGe

/-- GET /notification, src/backend.js lines 170-177. -/
def getNotifications (db : DB) : Resp :=
  ⟨200, .notificationList (listNotifications db)⟩

/-- DELETE /notification/delete/:id, src/backend.js lines 179-186. -/
def deleteNotification (db : DB) (id : Nat) : HandlerResult :=
  ⟨⟨200, .msg "Notification deleted successfully!"⟩,
   { db with notifications := db.notifications.eraseP (fun n => n.id == id) }⟩

/-! Helper lemmas about the modelled bcrypt hash. -/

theorem digestChars_length (l : List Char) : (digestChars l).length = 6 * l.length := by
  induction l with
  | nil => rfl
  | cons c cs ih => simp [digestChars, ih]; omega

theorem bcryptHash_length (salt pw : String) :
    (bcryptHash salt 10 pw).length = 7 + salt.length + 6 * pw.length := by
  have h10 : toString (10 : Nat) = "10" := rfl
  simp only [bcryptHash, h10, String.length_append]
  have h1 : ("$2b$").length = 4 := rfl
  have h2 : ("10").length = 2 := rfl
  have h3 : ("$").length = 1 := rfl
  have h4 : (String.mk (digestChars pw.data)).length = 6 * pw.length := by
    show (digestChars pw.data).length = 6 * pw.length
    rw [digestChars_length]; rfl
  rw [h1, h2, h3, h4]

theorem bcryptHash_ne_plain (salt pw : String) : bcryptHash salt 10 pw ≠ pw := by
  intro h
  have hlen := congrArg String.length h
  rw [bcryptHash_length] at hlen
  omega

/-- C1: for every login request, if no stored user has the given email the
response is the 400 NotFoundError; if a user is found but the bcrypt
comparison of the submitted password against the stored hash fails, the
response is the 400 InvalidCredentialsError; if the comparison succeeds,
the response carries a token signed with the server-held secret encoding
exactly the user's id and email with a 3600-second (1-hour) expiry. -/
theorem login_spec (db : DB) (secret : String) (email password : JsValue) :
    (db.users.find? (fun u => emailMatches email u) = none →
      login db secret email password = ⟨400, .err "User not found"⟩) ∧
    (∀ u, db.users.find? (fun u => emailMatches email u) = some u →
      bcryptCompareJs password u.password = .ok false →
      login db secret email password = ⟨400, .err "Invalid credentials"⟩) ∧
    (∀ u, db.users.find? (fun u => emailMatches email u) = some u →
      bcryptCompareJs password u.password = .ok true →
      login db secret email password =
        ⟨200, .msgToken "Login successful!" (jwtSign u.id u.email secret)⟩) := by
  refine ⟨fun h => ?_, fun u hu hc => ?_, fun u hu hc => ?_⟩ <;>
    simp [login, *]

/-- Witness for C1 at a one-user store: the three branches at concrete
requests (unknown email, wrong password, correct password). -/
theorem login_spec_witness :
    login ⟨[⟨1, "Ada", "L", "a@x.com",
        bcryptHash "ABCDEFGHIJKLMNOPQRSTUV" 10 "pw"⟩], [], [], 2⟩
      "sec" (.str "b@x.com") (.str "pw") = ⟨400, .err "User not found"⟩ ∧
    login ⟨[⟨1, "Ada", "L", "a@x.com",
        bcryptHash "ABCDEFGHIJKLMNOPQRSTUV" 10 "pw"⟩], [], [], 2⟩
      "sec" (.str "a@x.com") (.str "wrong") = ⟨400, .err "Invalid credentials"⟩ ∧
    login ⟨[⟨1, "Ada", "L", "a@x.com",
        bcryptHash "ABCDEFGHIJKLMNOPQRSTUV" 10 "pw"⟩], [], [], 2⟩
      "sec" (.str "a@x.com") (.str "pw") =
      ⟨200, .msgToken "Login successful!" (jwtSign 1 "a@x.com" "sec")⟩ :=
  ⟨(login_spec _ _ _ _).1 (by decide),
   (login_spec _ _ _ _).2.1
     ⟨1, "Ada", "L", "a@x.com", bcryptHash "ABCDEFGHIJKLMNOPQRSTUV" 10 "pw"⟩
     (by decide) (by rfl),
   (login_spec _ _ _ _).2.2
     ⟨1, "Ada", "L", "a@x.com", bcryptHash "ABCDEFGHIJKLMNOPQRSTUV" 10 "pw"⟩
     (by decide) (by rfl)⟩

/-- C2: signup with the four fields present (truthy) and an unregistered
email persists exactly one new User whose stored password field is the
bcrypt hash (cost factor 10) of the submitted plaintext and differs from
the plaintext; the response is 201 with a fixed message, independent of
the submitted password, so it echoes no sensitive data. -/
theorem signup_spec (salt : String) (db : DB) (firstName lastName email : JsValue)
    (pw : String) (hf : truthy firstName = true) (hl : truthy lastName = true)
    (he : truthy email = true) (hp : pw ≠ "")
    (hnew : db.users.find? (fun u => emailMatches email u) = none) :
    (signup salt db firstName lastName email (.str pw)).resp =
      ⟨201, .msg "User registered successfully!"⟩ ∧
    (signup salt db firstName lastName email (.str pw)).db.users =
      db.users ++ [⟨db.nextId, firstName.toStr, lastName.toStr, email.toStr,
        bcryptHash salt 10 pw⟩] ∧
    bcryptHash salt 10 pw ≠ pw ∧
    (signup salt db firstName lastName email (.str pw)).db.trips = db.trips ∧
    (signup salt db firstName lastName email (.str pw)).db.notifications =
      db.notifications ∧
    (∀ pw2 : String, pw2 ≠ "" →
      (signup salt db firstName lastName email (.str pw2)).resp =
        (signup salt db firstName lastName email (.str pw)).resp) := by
  have hsome : (db.users.find? (fun u => emailMatches email u)).isSome = false := by
    rw [hnew]; rfl
  have htr : truthy (JsValue.str pw) = true := by simp [truthy, hp]
  refine ⟨?_, ?_, bcryptHash_ne_plain salt pw, ?_, ?_, fun pw2 hp2 => ?_⟩
  · simp [signup, bcryptHashJs, hf, hl, he, htr, hsome]
  · simp [signup, bcryptHashJs, hf, hl, he, htr, hsome]
  · simp [signup, bcryptHashJs, hf, hl, he, htr, hsome]
  · simp [signup, bcryptHashJs, hf, hl, he, htr, hsome]
  · have htr2 : truthy (JsValue.str pw2) = true := by simp [truthy, hp2]
    simp [signup, bcryptHashJs, hf, hl, he, htr, htr2, hsome]

/-- Witness for C2 at a concrete empty store and request. -/
theorem signup_spec_witness :
    (signup "SALTSALTSALTSALTSALTSA" ⟨[], [], [], 1⟩
      (.str "Ada") (.str "L") (.str "a@x.com") (.str "pw")).resp =
      ⟨201, .msg "User registered successfully!"⟩ ∧
    (signup "SALTSALTSALTSALTSALTSA" ⟨[], [], [], 1⟩
      (.str "Ada") (.str "L") (.str "a@x.com") (.str "pw")).db.users =
      [] ++ [⟨1, "Ada", "L", "a@x.com", bcryptHash "SALTSALTSALTSALTSALTSA" 10 "pw"⟩] ∧
    bcryptHash "SALTSALTSALTSALTSALTSA" 10 "pw" ≠ "pw" := by
  have h := signup_spec "SALTSALTSALTSALTSALTSA" ⟨[], [], [], 1⟩
    (.str "Ada") (.str "L") (.str "a@x.com") "pw"
    (by decide) (by decide) (by decide) (by decide) (by decide)
  exact ⟨h.1, h.2.1, h.2.2.1⟩

/-- C3 counterexample: at a concrete one-user store, the unknown-email
failure and the wrong-password failure produce different response bodies,
so the two failures are distinguishable, refuting the claim that they are
indistinguishable. -/
theorem login_failures_distinguishable_cex :
    login ⟨[⟨1, "Ada", "L", "a@x.com", "h"⟩], [], [], 2⟩ "sec"
      (.str "b@x.com") (.str "p") = ⟨400, .err "User not found"⟩ ∧
    login ⟨[⟨1, "Ada", "L", "a@x.com", "h"⟩], [], [], 2⟩ "sec"
      (.str "a@x.com") (.str "p") = ⟨400, .err "Invalid credentials"⟩ ∧
    login ⟨[⟨1, "Ada", "L", "a@x.com", "h"⟩], [], [], 2⟩ "sec"
      (.str "b@x.com") (.str "p") ≠
      login ⟨[⟨1, "Ada", "L", "a@x.com", "h"⟩], [], [], 2⟩ "sec"
      (.str "a@x.com") (.str "p") := by
  exact ⟨by rfl, by rfl, by decide⟩

/-- C3 amended: the two login failure modes share the 400 status but carry
distinct error bodies ("User not found" versus "Invalid credentials"), so
the response does reveal whether the email exists. -/
theorem login_failures_distinguishable (db : DB) (secret : String)
    (e1 p1 e2 p2 : JsValue) (u : User)
    (h1 : db.users.find? (fun v => emailMatches e1 v) = none)
    (h2 : db.users.find? (fun v => emailMatches e2 v) = some u)
    (h3 : bcryptCompareJs p2 u.password = .ok false) :
    login db secret e1 p1 = ⟨400, .err "User not found"⟩ ∧
    login db secret e2 p2 = ⟨400, .err "Invalid credentials"⟩ ∧
    login db secret e1 p1 ≠ login db secret e2 p2 := by
  refine ⟨?_, ?_, ?_⟩
  · simp [login, h1]
  · simp [login, h2, h3]
  · simp [login, h1, h2, h3]

/-- Witness for the amended C3 at a concrete one-user store. -/
theorem login_failures_distinguishable_witness :
    login ⟨[⟨7, "Ada", "L", "u@x.com", "hashhh"⟩], [], [], 8⟩ "sec"
      (.str "v@x.com") (.str "q") ≠
      login ⟨[⟨7, "Ada", "L", "u@x.com", "hashhh"⟩], [], [], 8⟩ "sec"
      (.str "u@x.com") (.str "q") :=
  (login_failures_distinguishable ⟨[⟨7, "Ada", "L", "u@x.com", "hashhh"⟩], [], [], 8⟩
    "sec" (.str "v@x.com") (.str "q") (.str "u@x.com") (.str "q")
    ⟨7, "Ada", "L", "u@x.com", "hashhh"⟩ (by decide) (by decide) (by rfl)).2.2

/-- C4 counterexample: a signup whose email duplicates a stored user but
whose firstName is absent fails with the ValidationError body, not the
ConflictError body, refuting "fails with a ConflictError regardless of the
values of the other fields". -/
theorem signup_duplicate_cex :
    (signup "S" ⟨[⟨1, "Ada", "L", "a@x.com", "h"⟩], [], [], 2⟩
      .undef (.str "L") (.str "a@x.com") (.str "p")).resp =
      ⟨400, .err "All fields are required"⟩ ∧
    Body.err "All fields are required" ≠ Body.err "Email already registered" := by
  exact ⟨by rfl, by decide⟩

/-- C4 amended: for a signup request whose email matches a stored user, no
new User is ever persisted and the database is unchanged; the response is
the 400 ConflictError when the other fields are all present and truthy,
and the 400 ValidationError when any field is falsy or absent. -/
theorem signup_duplicate_spec (salt : String) (db : DB)
    (firstName lastName email password : JsValue) (u : User)
    (hu : u ∈ db.users) (hm : emailMatches email u = true) :
    (signup salt db firstName lastName email password).db = db ∧
    (truthy firstName = true → truthy lastName = true → truthy email = true →
      truthy password = true →
      (signup salt db firstName lastName email password).resp =
        ⟨400, .err "Email already registered"⟩) ∧
    (¬(truthy firstName = true ∧ truthy lastName = true ∧ truthy email = true ∧
        truthy password = true) →
      (signup salt db firstName lastName email password).resp =
        ⟨400, .err "All fields are required"⟩) := by
  have hsome : (db.users.find? (fun v => emailMatches email v)).isSome = true :=
    List.find?_isSome.mpr ⟨u, hu, hm⟩
  refine ⟨?_, fun hf hl he hp => ?_, fun hnot => ?_⟩
  · simp only [signup, hsome, if_true]
    split <;> rfl
  · simp [signup, hf, hl, he, hp, hsome]
  · have hcond : (!truthy firstName || !truthy lastName || !truthy email ||
        !truthy password) = true := by
      cases hf : truthy firstName <;> cases hl : truthy lastName <;>
        cases he : truthy email <;> cases hp : truthy password <;> simp_all
    simp [signup, hcond]

/-- Witness for the amended C4 at a concrete one-user store, in both the
all-fields-truthy case and the missing-field case. -/
theorem signup_duplicate_spec_witness :
    (signup "S" ⟨[⟨1, "Ada", "L", "a@x.com", "h"⟩], [], [], 2⟩
      (.str "B") (.str "C") (.str "a@x.com") (.str "p")).db =
      ⟨[⟨1, "Ada", "L", "a@x.com", "h"⟩], [], [], 2⟩ ∧
    (signup "S" ⟨[⟨1, "Ada", "L", "a@x.com", "h"⟩], [], [], 2⟩
      (.str "B") (.str "C") (.str "a@x.com") (.str "p")).resp =
      ⟨400, .err "Email already registered"⟩ ∧
    (signup "S" ⟨[⟨1, "Ada", "L", "a@x.com", "h"⟩], [], [], 2⟩
      (.str "B") (.str "C") (.str "a@x.com") .undef).resp =
      ⟨400, .err "All fields are required"⟩ := by
  have h1 := signup_duplicate_spec "S" ⟨[⟨1, "Ada", "L", "a@x.com", "h"⟩], [], [], 2⟩
    (.str "B") (.str "C") (.str "a@x.com") (.str "p")
    ⟨1, "Ada", "L", "a@x.com", "h"⟩ (by decide) (by decide)
  have h2 := signup_duplicate_spec "S" ⟨[⟨1, "Ada", "L", "a@x.com", "h"⟩], [], [], 2⟩
    (.str "B") (.str "C") (.str "a@x.com") .undef
    ⟨1, "Ada", "L", "a@x.com", "h"⟩ (by decide) (by decide)
  exact ⟨h1.1, h1.2.1 (by decide) (by decide) (by decide) (by decide),
    h2.2.2 (by decide)⟩

/-- C5: reset-password fails (500, single catch-all body) when the identity
provider rejects the email; fails the same way when link generation succeeds
but mail delivery fails; and on success of both returns 200 with the
confirmation message and the generated reset link itself in the body. -/
theorem resetPassword_spec (generateLink : String → Except Unit String)
    (sendMail : String → String → Except Unit Unit) (email : JsValue) :
    (∀ e, generateLink email.toStr = .error e →
      resetPassword generateLink sendMail email =
        ⟨500, .err "Failed to send reset email"⟩) ∧
    (∀ link e, generateLink email.toStr = .ok link →
      sendMail email.toStr link = .error e →
      resetPassword generateLink sendMail email =
        ⟨500, .err "Failed to send reset email"⟩) ∧
    (∀ link, generateLink email.toStr = .ok link →
      sendMail email.toStr link = .ok () →
      resetPassword generateLink sendMail email =
        ⟨200, .msgLink "Password reset email sent!" link⟩) := by
  refine ⟨fun e h => ?_, fun link e h1 h2 => ?_, fun link h1 h2 => ?_⟩
  · simp [resetPassword, h]
  · simp [resetPassword, h1, h2]
  · simp [resetPassword, h1, h2]

/-- Witness for C5 with concrete provider and mail collaborators covering
the three branches. -/
theorem resetPassword_spec_witness :
    resetPassword (fun _ => .error ()) (fun _ _ => .ok ()) (.str "a@x.com") =
      ⟨500, .err "Failed to send reset email"⟩ ∧
    resetPassword (fun _ => .ok "L1") (fun _ _ => .error ()) (.str "a@x.com") =
      ⟨500, .err "Failed to send reset email"⟩ ∧
    resetPassword (fun _ => .ok "L1") (fun _ _ => .ok ()) (.str "a@x.com") =
      ⟨200, .msgLink "Password reset email sent!" "L1"⟩ :=
  ⟨(resetPassword_spec (fun _ => .error ()) (fun _ _ => .ok ())
      (.str "a@x.com")).1 () rfl,
   (resetPassword_spec (fun _ => .ok "L1") (fun _ _ => .error ())
      (.str "a@x.com")).2.1 "L1" () rfl rfl,
   (resetPassword_spec (fun _ => .ok "L1") (fun _ _ => .ok ())
      (.str "a@x.com")).2.2 "L1" rfl rfl⟩

/-- C6: a trip-add request missing name, date or budget, and a
notification-add request missing message or type, each return the 400
validation response and leave the database unchanged. -/
theorem add_missing_field_spec (db : DB) (name date budget message type : JsValue)
    (now : Int) :
    ((name = .undef ∨ date = .undef ∨ budget = .undef) →
      addTrip db name date budget = ⟨⟨400, .err "All fields are required"⟩, db⟩) ∧
    ((message = .undef ∨ type = .undef) →
      addNotification db now message type =
        ⟨⟨400, .err "Message and type are required"⟩, db⟩) := by
  constructor
  · rintro (rfl | rfl | rfl) <;> simp [addTrip, truthy]
  · rintro (rfl | rfl) <;> simp [addNotification, truthy]

/-- Witness for C6 at a concrete store with a missing date and a missing
type. -/
theorem add_missing_field_spec_witness :
    addTrip ⟨[], [⟨1, "t", 5, 9⟩], [], 2⟩ (.str "Rome") .undef (.num 100) =
      ⟨⟨400, .err "All fields are required"⟩, ⟨[], [⟨1, "t", 5, 9⟩], [], 2⟩⟩ ∧
    addNotification ⟨[], [⟨1, "t", 5, 9⟩], [], 2⟩ 7 (.str "hello") .undef =
      ⟨⟨400, .err "Message and type are required"⟩, ⟨[], [⟨1, "t", 5, 9⟩], [], 2⟩⟩ :=
  ⟨(add_missing_field_spec ⟨[], [⟨1, "t", 5, 9⟩], [], 2⟩ (.str "Rome") .undef
      (.num 100) (.str "hello") .undef 7).1 (Or.inr (Or.inl rfl)),
   (add_missing_field_spec ⟨[], [⟨1, "t", 5, 9⟩], [], 2⟩ (.str "Rome") .undef
      (.num 100) (.str "hello") .undef 7).2 (Or.inr rfl)⟩

/-- A date-sorted permutation of a strictly date-increasing triple is that
triple. -/
theorem sorted_perm_triple (l : List Trip) (t1 t2 t3 : Trip)
    (hp : l.Perm [t1, t2, t3]) (hs : l.Sorted tripDateLe)
    (h12 : t1.date < t2.date) (h23 : t2.date < t3.date) : l = [t1, t2, t3] := by
  have hlen : l.length = 3 := by simpa using hp.length_eq
  rcases l with _ | ⟨a, _ | ⟨b, _ | ⟨c, _ | ⟨d, l'⟩⟩⟩⟩ <;> simp at hlen
  simp only [List.sorted_cons, List.mem_cons, List.mem_singleton, List.not_mem_nil,
    tripDateLe] at hs
  have hab : a.date ≤ b.date := hs.1 b (by simp)
  have hac : a.date ≤ c.date := hs.1 c (by simp)
  have hbc : b.date ≤ c.date := hs.2.1 c (by simp)
  have ha : a ∈ [t1, t2, t3] := hp.subset (by simp)
  have ht1 : t1 ∈ [a, b, c] := hp.symm.subset (by simp)
  simp only [List.mem_cons, List.mem_singleton, List.not_mem_nil, or_false] at ha ht1
  rcases ha with rfl | rfl | rfl
  · have hp' := (List.perm_cons a).mp hp
    have hb : b ∈ [t2, t3] := hp'.subset (by simp)
    simp only [List.mem_cons, List.mem_singleton, List.not_mem_nil, or_false] at hb
    rcases hb with rfl | rfl
    · have hp'' := (List.perm_cons b).mp hp'
      have hc : c = t3 := by simpa using hp''
      rw [hc]
    · have ht2 : t2 ∈ [b, c] := hp'.symm.subset (by simp)
      simp only [List.mem_cons, List.mem_singleton, List.not_mem_nil, or_false] at ht2
      rcases ht2 with rfl | rfl
      · omega
      · omega
  · rcases ht1 with rfl | rfl | rfl
    · omega
    · omega
    · omega
  · rcases ht1 with rfl | rfl | rfl
    · omega
    · omega
    · omega

/-- C7: the trip listing is a permutation of the stored trips, sorted
ascending by date; it is empty when the store is empty; and when the store
holds exactly three trips with strictly increasing dates D1 less than D2
less than D3, in any insertion order, the listing is those trips in date
order. -/
theorem listTrips_spec (db : DB) :
    (listTrips db).Perm db.trips ∧
    (listTrips db).Sorted tripDateLe ∧
    (db.trips = [] → listTrips db = []) ∧
    (∀ t1 t2 t3 : Trip, db.trips.Perm [t1, t2, t3] → t1.date < t2.date →
      t2.date < t3.date → listTrips db = [t1, t2, t3]) := by
  refine ⟨List.perm_insertionSort tripDateLe db.trips,
    List.sorted_insertionSort tripDateLe db.trips,
    fun h => by rw [listTrips, h]; rfl,
    fun t1 t2 t3 hp h12 h23 => ?_⟩
  exact sorted_perm_triple _ t1 t2 t3
    ((List.perm_insertionSort tripDateLe db.trips).trans hp)
    (List.sorted_insertionSort tripDateLe db.trips) h12 h23

/-- Witness for C7: three trips inserted out of date order are listed in
ascending date order, and the empty store lists nothing. -/
theorem listTrips_spec_witness :
    listTrips ⟨[], [⟨1, "c", 30, 5⟩, ⟨2, "a", 10, 5⟩, ⟨3, "b", 20, 5⟩], [], 4⟩ =
      [⟨2, "a", 10, 5⟩, ⟨3, "b", 20, 5⟩, ⟨1, "c", 30, 5⟩] ∧
    listTrips ⟨[], [], [], 1⟩ = [] := by
  constructor
  · exact (listTrips_spec _).2.2.2 ⟨2, "a", 10, 5⟩ ⟨3, "b", 20, 5⟩ ⟨1, "c", 30, 5⟩
      (by decide) (by decide) (by decide)
  · exact (listTrips_spec _).2.2.1 rfl

/-- C8: deleting a trip or notification by id always responds 200 with the
success message, even when no stored record has that id (in which case the
database is unchanged); when a record with that id exists (ids being
unique), exactly that record is removed and every other record is kept in
place. -/
theorem delete_spec (db : DB) (id : Nat) :
    (deleteTrip db id).resp = ⟨200, .msg "Trip deleted successfully!"⟩ ∧
    (deleteNotification db id).resp = ⟨200, .msg "Notification deleted successfully!"⟩ ∧
    ((∀ t ∈ db.trips, t.id ≠ id) → (deleteTrip db id).db = db) ∧
    ((∀ n ∈ db.notifications, n.id ≠ id) → (deleteNotification db id).db = db) ∧
    (∀ t ∈ db.trips, t.id = id → (db.trips.map Trip.id).Nodup →
      ∃ l₁ l₂, db.trips = l₁ ++ t :: l₂ ∧
        (deleteTrip db id).db = { db with trips := l₁ ++ l₂ }) ∧
    (∀ n ∈ db.notifications, n.id = id →
      (db.notifications.map Notification.id).Nodup →
      ∃ l₁ l₂, db.notifications = l₁ ++ n :: l₂ ∧
        (deleteNotification db id).db = { db with notifications := l₁ ++ l₂ }) := by
  refine ⟨rfl, rfl, ?_, ?_, ?_, ?_⟩
  · intro h
    have he : db.trips.eraseP (fun t => t.id == id) = db.trips :=
      List.eraseP_of_forall_not (fun a ha => by simpa using h a ha)
    simp [deleteTrip, he]
  · intro h
    have he : db.notifications.eraseP (fun n => n.id == id) = db.notifications :=
      List.eraseP_of_forall_not (fun a ha => by simpa using h a ha)
    simp [deleteNotification, he]
  · intro t ht htid hnodup
    have hp : ((fun x : Trip => x.id == id) t) = true := by simp [htid]
    obtain ⟨a, l₁, l₂, hnl, hpa, hsplit, herase⟩ :=
      @List.exists_of_eraseP Trip (fun x => x.id == id) db.trips t ht hp
    have haid : a.id = id := by simpa using hpa
    have hat : a = t := by
      have hmem : a ∈ db.trips := by rw [hsplit]; simp
      exact List.inj_on_of_nodup_map hnodup hmem ht (by rw [haid, htid])
    rw [hat] at hsplit
    exact ⟨l₁, l₂, hsplit, by simp [deleteTrip, herase]⟩
  · intro n hn hnid hnodup
    have hp : ((fun x : Notification => x.id == id) n) = true := by simp [hnid]
    obtain ⟨a, l₁, l₂, hnl, hpa, hsplit, herase⟩ :=
      @List.exists_of_eraseP Notification (fun x => x.id == id) db.notifications n hn hp
    have haid : a.id = id := by simpa using hpa
    have hat : a = n := by
      have hmem : a ∈ db.notifications := by rw [hsplit]; simp
      exact List.inj_on_of_nodup_map hnodup hmem hn (by rw [haid, hnid])
    rw [hat] at hsplit
    exact ⟨l₁, l₂, hsplit, by simp [deleteNotification, herase]⟩

/-- Witness for C8 at concrete stores: deleting a missing id leaves the
store unchanged with a 200, and deleting a present id removes exactly that
record. -/
theorem delete_spec_witness :
    (deleteTrip ⟨[], [⟨1, "a", 1, 1⟩, ⟨2, "b", 2, 2⟩], [], 3⟩ 2).resp =
      ⟨200, .msg "Trip deleted successfully!"⟩ ∧
    (deleteNotification ⟨[], [], [⟨5, "m", "t", 9⟩], 6⟩ 7).db =
      ⟨[], [], [⟨5, "m", "t", 9⟩], 6⟩ ∧
    (∃ l₁ l₂, [⟨1, "a", 1, 1⟩, ⟨2, "b", 2, 2⟩] = l₁ ++ (⟨2, "b", 2, 2⟩ : Trip) :: l₂ ∧
      (deleteTrip ⟨[], [⟨1, "a", 1, 1⟩, ⟨2, "b", 2, 2⟩], [], 3⟩ 2).db =
        ⟨[], l₁ ++ l₂, [], 3⟩) :=
  ⟨(delete_spec _ 2).1,
   (delete_spec _ 7).2.2.2.1 (by decide),
   (delete_spec ⟨[], [⟨1, "a", 1, 1⟩, ⟨2, "b", 2, 2⟩], [], 3⟩ 2).2.2.2.2.1
     ⟨2, "b", 2, 2⟩ (by decide) rfl (by decide)⟩

/-- C9: the required-field guards reject falsy present values as they do
absent fields: a trip budget of 0 is rejected exactly like an absent
budget, and an empty-string value in any required string field of signup,
trip-add or notification-add yields the same 400 validation response with
the store unchanged. -/
theorem falsy_field_spec (salt : String) (db : DB)
    (fn ln em pw name date budget message type : JsValue) (now : Int) :
    (addTrip db name date (.num 0) = ⟨⟨400, .err "All fields are required"⟩, db⟩ ∧
      addTrip db name date (.num 0) = addTrip db name date .undef) ∧
    ((fn = .str "" ∨ ln = .str "" ∨ em = .str "" ∨ pw = .str "") →
      signup salt db fn ln em pw = ⟨⟨400, .err "All fields are required"⟩, db⟩) ∧
    ((name = .str "" ∨ date = .str "" ∨ budget = .str "") →
      addTrip db name date budget = ⟨⟨400, .err "All fields are required"⟩, db⟩) ∧
    ((message = .str "" ∨ type = .str "") →
      addNotification db now message type =
        ⟨⟨400, .err "Message and type are required"⟩, db⟩) := by
  refine ⟨⟨?_, ?_⟩, ?_, ?_, ?_⟩
  · simp [addTrip, truthy]
  · simp [addTrip, truthy]
  · rintro (rfl | rfl | rfl | rfl) <;> simp [signup, truthy]
  · rintro (rfl | rfl | rfl) <;> simp [addTrip, truthy]
  · rintro (rfl | rfl) <;> simp [addNotification, truthy]

/-- Witness for C9 at a concrete store: budget 0 and an empty-string email
are both rejected like absent fields. -/
theorem falsy_field_spec_witness :
    addTrip ⟨[], [], [], 1⟩ (.str "Rome") (.num 5) (.num 0) =
      ⟨⟨400, .err "All fields are required"⟩, ⟨[], [], [], 1⟩⟩ ∧
    signup "S" ⟨[], [], [], 1⟩ (.str "A") (.str "B") (.str "") (.str "p") =
      ⟨⟨400, .err "All fields are required"⟩, ⟨[], [], [], 1⟩⟩ :=
  ⟨((falsy_field_spec "S" ⟨[], [], [], 1⟩ (.str "A") (.str "B") (.str "")
      (.str "p") (.str "Rome") (.num 5) (.num 0) (.str "m") (.str "t") 0).1).1,
   (falsy_field_spec "S" ⟨[], [], [], 1⟩ (.str "A") (.str "B") (.str "")
      (.str "p") (.str "Rome") (.num 5) (.num 0) (.str "m") (.str "t") 0).2.1
     (Or.inr (Or.inr (Or.inl rfl)))⟩

/-- C10: login validates nothing itself: with an absent email the lookup
matches no user and the response is the 400 NotFoundError; with an email
matching a stored user but an absent password, the bcrypt comparison
errors and the handler returns the generic 500 server-error response with
the comparison error as details, not a 400 validation response. -/
theorem login_no_validation_spec (db : DB) (secret : String) (password em : JsValue)
    (u : User) :
    login db secret .undef password = ⟨400, .err "User not found"⟩ ∧
    (db.users.find? (fun v => emailMatches em v) = some u →
      login db secret em .undef =
        ⟨500, .errDet "Server error" "Illegal arguments: undefined, string"⟩) := by
  constructor
  · have hnone : db.users.find? (fun v => emailMatches .undef v) = none :=
      List.find?_eq_none.mpr (fun x _ => by simp [emailMatches])
    simp [login, hnone]
  · intro h
    simp [login, h, bcryptCompareJs]

/-- Witness for C10 at a concrete one-user store. -/
theorem login_no_validation_witness :
    login ⟨[⟨3, "A", "B", "w@x.com", "hh"⟩], [], [], 4⟩ "sec" .undef (.str "p") =
      ⟨400, .err "User not found"⟩ ∧
    login ⟨[⟨3, "A", "B", "w@x.com", "hh"⟩], [], [], 4⟩ "sec" (.str "w@x.com") .undef =
      ⟨500, .errDet "Server error" "Illegal arguments: undefined, string"⟩ :=
  ⟨(login_no_validation_spec ⟨[⟨3, "A", "B", "w@x.com", "hh"⟩], [], [], 4⟩ "sec"
      (.str "p") (.str "w@x.com") ⟨3, "A", "B", "w@x.com", "hh"⟩).1,
   (login_no_validation_spec ⟨[⟨3, "A", "B", "w@x.com", "hh"⟩], [], [], 4⟩ "sec"
      (.str "p") (.str "w@x.com") ⟨3, "A", "B", "w@x.com", "hh"⟩).2 (by decide)⟩

end Backend
